import Mathlib

/-!
Verification of the Kakao webhook service in `app/main.py`.

The single source file `app/main.py` contains unresolved git merge conflict
markers, so it interleaves two variants of the same FastAPI service:

* the HEAD variant (CSV rule engine, internal-probe guard, draft builder,
  synchronous LLM refinement of the draft), and
* the `282b89b` variant (address-to-address map cards, spot carousel,
  weather cards, web search, direct LLM answer).

Each Python function cited by the specification is embedded below from its
own variant.  Python strings are `String`, Python `dict` rows from
`csv.DictReader` are `Row` records with `Option String` fields (`none` =
key absent), Python's truthiness-based `x or y` on strings is `pyOrStr`,
and JSON payloads are values of the inductive type `J`.

Modelling conventions (deviations from CPython noted here once):
`pyLowerStr`/`Char.toLower` lower-cases ASCII letters only (all keywords in
the source are ASCII or Korean, which Python's `str.lower` also leaves
unchanged); `pyStrip` strips the ASCII whitespace characters, not the full
Unicode whitespace set; regular-expression `\s` is modelled by the same
ASCII whitespace set.
-/

/-- ASCII whitespace, modelling Python's `str.strip` / regex `\s` class. -/
def pySpace (c : Char) : Bool :=
  c = ' ' || c = '\t' || c = '\n' || c = '\r' || c = Char.ofNat 11 || c = Char.ofNat 12

/-- Python `s.strip()`: drop whitespace from both ends. -/
def pyStrip (s : String) : String :=
  String.mk (((s.data.dropWhile pySpace).reverse.dropWhile pySpace).reverse)

/-- Python `s.lower()` (ASCII letters only; see header note). -/
def pyLowerStr (s : String) : String :=
  String.mk (s.data.map Char.toLower)

/-- Python `x or y` where `x : Optional[str]`: `y` when `x` is `None` or `""`. -/
def pyOrStr (x : Option String) (y : String) : String :=
  match x with
  | none => y
  | some s => if s = "" then y else s

/-- Whether `needle` matches at the head of `hay`. -/
def leadMatch : List Char → List Char → Bool
  | [], _ => true
  | _ :: _, [] => false
  | a :: as, b :: bs => a = b && leadMatch as bs

/-- Substring test on character lists (Python's `needle in hay`). -/
def subList (needle : List Char) : List Char → Bool
  | [] => leadMatch needle []
  | c :: t => leadMatch needle (c :: t) || subList needle t

/-- Python `needle in hay` on strings. -/
def strContains (hay needle : String) : Bool :=
  subList needle.data hay.data

/-- Membership of a string in a list (Python's `key in <set>`). -/
def memStr (k : String) : List String → Bool
  | [] => false
  | a :: t => (a = k) || memStr k t

/-- One row produced by `csv.DictReader`: only the six columns the service
reads are modelled; `none` means the key is absent from the row. -/
structure Row where
  poi_id : Option String
  name : Option String
  title : Option String
  area : Option String
  severity : Option String
  level : Option String
deriving DecidableEq

/-- The key `(r.get("poi_id") or r.get("name") or "").strip()` used both
for blacklist rows and for candidate rows in `filter_blacklist`. -/
def rowKey (r : Row) : String :=
  pyStrip (pyOrStr r.poi_id (pyOrStr r.name ""))

/-- The value `(r.get("severity") or "").lower()`. -/
def sevLow (r : Row) : String :=
  pyLowerStr (pyOrStr r.severity "")

/-- The value `(p.get("area") or "").strip()`. -/
def areaKey (p : Row) : String :=
  pyStrip (pyOrStr p.area "")

/-- One iteration of the `blocked`-set loop of `filter_blacklist`. -/
def blockedStep (acc : List String) (r : Row) : List String :=
  if sevLow r = "high" then
    if rowKey r = "" then acc else rowKey r :: acc
  else acc

/-- The `blocked` set of `filter_blacklist` (modelled as a list; only
membership is ever used): keys of rows whose severity lower-cases to
`"high"`, skipping empty keys. -/
def blockedKeys (bl : List Row) : List String :=
  bl.foldl blockedStep []

/-- Embeds `filter_blacklist` from `app/main.py` (HEAD variant, lines 141–155):
keep every candidate whose key is empty or not in the blocked set.  Note
the key membership test is exact — the source lower-cases only the
severity, never the keys. -/
def filter_blacklist (pois bl : List Row) : List Row :=
  let blocked := blockedKeys bl
  pois.filter (fun p => !((rowKey p != "") && memStr (rowKey p) blocked))

/-- The set of areas of congestion rules whose level lower-cases to
`"high"` (`apply_congestion_rules`, first line). -/
def highAreas (rules : List Row) : List String :=
  (rules.filter (fun r => pyLowerStr (pyOrStr r.level "") = "high")).map areaKey

/-- Embeds `apply_congestion_rules` from `app/main.py` (HEAD variant, lines
157–161): drop candidates in high-congestion areas; `filtered or pois`
reverts to the input when the filter removed everything; the notice flag
compares lengths before the revert. -/
def apply_congestion_rules (pois rules : List Row) : List Row × Bool :=
  let high := highAreas rules
  let filtered := pois.filter (fun p => !memStr (areaKey p) high)
  let notice := decide (filtered.length < pois.length)
  (if filtered.isEmpty then pois else filtered, notice)

/-- Embeds `read_csv_dicts` (HEAD variant, lines 67–74): the file system is an
explicit parameter mapping a file name to either its parsed rows or a read
failure; any failure degrades to `[]`. -/
def read_csv_dicts (fs : String → Except String (List Row)) (filename : String) :
    List Row :=
  match fs filename with
  | Except.ok rows => rows
  | Except.error _ => []

/-- Embeds `pick_courses` (HEAD variant, lines 163–167). -/
def pick_courses (fs : String → Except String (List Row)) : List Row :=
  let items := read_csv_dicts fs "jeju_hotel_halftime_courses.csv"
  let items := if items.isEmpty then read_csv_dicts fs "jeju_sample_halfday_courses.csv" else items
  items.take 3

/-- The blacklist filter as the specification words it — identifier/name
comparison performed case-insensitively.  Declared only to be compared
with the source's `filter_blacklist`. -/
def filter_blacklist_ci (pois bl : List Row) : List Row :=
  let blocked := (blockedKeys bl).map pyLowerStr
  pois.filter (fun p => !((pyLowerStr (rowKey p) != "") && memStr (pyLowerStr (rowKey p)) blocked))

/-- JSON values, as built by the handlers (`dict` → `obj` with insertion
order preserved, `list` → `arr`). -/
inductive J where
  | str : String → J
  | arr : List J → J
  | obj : List (String × J) → J

/-- Embeds `kakao_text` (both variants): a single `simpleText` bubble. -/
def kakao_text (text : String) : J :=
  J.obj [("version", J.str "2.0"),
         ("template", J.obj [("outputs",
            J.arr [J.obj [("simpleText", J.obj [("text", J.str text)])]])])]

/-- A `webLink` button object. -/
def webButton (label url : String) : J :=
  J.obj [("action", J.str "webLink"), ("label", J.str label), ("webLinkUrl", J.str url)]

/-- Embeds `kakao_basic_card` (`282b89b` variant, lines 181–196); the thumbnail
key is appended after construction when an image URL is given. -/
def kakao_basic_card (title description : String) (buttons : List J)
    (image_url : Option String) : J :=
  J.obj [("version", J.str "2.0"),
         ("template", J.obj [("outputs",
            J.arr [J.obj [("basicCard", J.obj
              ([("title", J.str title),
                ("description", J.str description),
                ("buttons", J.arr buttons)] ++
               (match image_url with
                | some u => [("thumbnail", J.obj [("imageUrl", J.str u)])]
                | none => [])))]])])]

/-- First value bound to `key` in an object's field list. -/
def jlookup (key : String) : List (String × J) → Option J
  | [] => none
  | (k, v) :: t => if k = key then some v else jlookup key t

/-- The `template.outputs` array of a payload (empty if absent), as read
by `kakao_text_plus_card`. -/
def template_outputs (card : J) : List J :=
  match card with
  | J.obj fields =>
    match jlookup "template" fields with
    | some (J.obj tf) =>
      match jlookup "outputs" tf with
      | some (J.arr xs) => xs
      | _ => []
    | _ => []
  | _ => []

/-- Embeds `kakao_text_plus_card` (`282b89b` variant, lines 198–202). -/
def kakao_text_plus_card (text : String) (card_obj : J) : J :=
  J.obj [("version", J.str "2.0"),
         ("template", J.obj [("outputs",
            J.arr ([J.obj [("simpleText", J.obj [("text", J.str text)])]] ++
                   template_outputs card_obj))])]

/-- Embeds `kakao_carousel` (`282b89b` variant, lines 204–215). -/
def kakao_carousel (cards : List J) : J :=
  J.obj [("version", J.str "2.0"),
         ("template", J.obj [("outputs",
            J.arr [J.obj [("carousel", J.obj
              [("type", J.str "basicCard"), ("items", J.arr cards)])]])])]

/-- Embeds `guess_lang` (both variants define it identically): `"ko"` iff some
character lies in the Hangul syllable block U+AC00–U+D7A3. -/
def guess_lang (text : String) : String :=
  if text.data.any (fun ch => Char.ofNat 0xAC00 ≤ ch && ch ≤ Char.ofNat 0xD7A3)
  then "ko" else "en"

/-- The probe keyword list of `is_internal_probe` (HEAD variant, line 135). -/
def probeKeys : List String :=
  ["지침", "룰엔진", "만들어졌", "internal", "prompt", "시스템", "csv",
   "데이터셋", "코드 보여줘", "내용 보여줘"]

/-- Embeds `is_internal_probe` (HEAD variant, lines 131–136). -/
def is_internal_probe (text : String) : Bool :=
  if text = "" then false
  else probeKeys.any (fun k => strContains (pyLowerStr text) k)

/-- The request body, as far as the handlers read it: the optional
`userRequest` object holding an optional `utterance` string. -/
structure KBody where
  userRequest : Option (Option String)
deriving DecidableEq

/-- Extraction of the utterance, HEAD variant, lines 414–420: a body that failed to parse is `none`
(replaced by `{}`), and
`((body.get("userRequest") or {}).get("utterance") or "").strip()`. -/
def extract_utter_head (raw : Option KBody) : String :=
  let body := raw.getD ⟨none⟩
  pyStrip (pyOrStr (body.userRequest.getD none) "")

/-- The three base tips of the HEAD handler (lines 434–438). -/
def baseTips : List String :=
  ["이동 시간은 여유 있게 30~40분 단위로 잡아주세요.",
   "바람이 강할 수 있어 바람막이/우산을 준비하세요.",
   "주요 스팟은 주차 대기가 발생할 수 있어요."]

/-- One course line of the HEAD handler (line 442):
`f"- {p.get('name') or p.get('title','추천 코스')} ({p.get('area','')}) — 운영시간은 공식 안내 확인 필요"`. -/
def courseLine (p : Row) : String :=
  "- " ++ pyOrStr p.name (p.title.getD "추천 코스") ++ " (" ++ p.area.getD "" ++
  ") — 운영시간은 공식 안내 확인 필요"

/-- The draft assembly of the HEAD handler (lines 434–453), as a function
of the filtered candidates and the congestion notice flag. -/
def build_draft (pois : List Row) (cong_notice : Bool) : String :=
  let tips := if cong_notice
    then "혼잡 구간이 있어 대체 시간대/인근 코스를 권장해요." :: baseTips
    else baseTips
  let course_lines := pois.map courseLine
  let course_lines := if course_lines.isEmpty
    then ["- 반나절 2~3곳 위주로 이동 동선 최소화"] else course_lines
  let eat_lines := ["- 인근 해산물/한식 위주로 동선 맞춰 추천",
                    "- 카페·디저트 1곳 포함해 휴식 동선 구성"]
  "📌 여행 기본 팁\n" ++ String.intercalate "\n" (tips.take 5) ++ "\n\n" ++
  "📍 추천 여행지 & 코스 아이디어\n" ++ String.intercalate "\n" (course_lines.take 5) ++ "\n\n" ++
  "🍽️ 맛집 추천\n" ++ String.intercalate "\n" (eat_lines.take 5) ++ "\n\n" ++
  "최신 운영시간과 예약은 공식 안내 확인이 필요합니다."

/-- The rule-engine pipeline of the HEAD handler (lines 428–432). -/
def head_rule_result (fs : String → Except String (List Row)) : List Row × Bool :=
  let bl := read_csv_dicts fs "jeju_access_blacklist.csv"
  let cong := read_csv_dicts fs "jeju_congestion_rules.csv"
  let pois := pick_courses fs
  apply_congestion_rules (filter_blacklist pois bl) cong

/-- The draft the HEAD handler builds for a given Knowledge Store. -/
def head_draft (fs : String → Except String (List Row)) : String :=
  build_draft (head_rule_result fs).1 (head_rule_result fs).2

/-- Environment of the HEAD handler: whether an OpenAI client was built
(`OPENAI_API_KEY` non-empty), the Knowledge Store, and the outcome of the
`chat.completions.create` call (`none` = the call raised / timed out,
`some content` = it returned `content`). -/
structure HeadEnv where
  clientConfigured : Bool
  fs : String → Except String (List Row)
  llm : Option String

/-- A handler outcome: the JSON payload returned plus whether the handler
reached the LLM call site. -/
structure HResult where
  payload : J
  llmAttempted : Bool

/-- The `/kakao/skill` handler of the HEAD variant (lines 414–453 and
561–578): probe guard, missing-key guard, rule-engine draft, then
synchronous LLM refinement with the draft as the fallback on any
exception. -/
def kakao_skill_head (env : HeadEnv) (raw : Option KBody) : HResult :=
  let utter := extract_utter_head raw
  if is_internal_probe utter then
    ⟨kakao_text "비밀이에요 🤫 공식적으로 공개되지 않은 정보입니다.", false⟩
  else if !env.clientConfigured then
    ⟨kakao_text "서버 설정 오류: OPENAI_API_KEY 필요", false⟩
  else
    match env.llm with
    | some content => ⟨kakao_text (pyStrip content), true⟩
    | none => ⟨kakao_text (head_draft env.fs), true⟩

/-- Upper-case hexadecimal digit, as used by `urllib.parse.quote_plus`. -/
def hexUpper (n : Nat) : Char :=
  if n < 10 then Char.ofNat (48 + n) else Char.ofNat (55 + n)

/-- Byte sequence of one scalar value under UTF-8 (Python strings are percent-encoded
through their UTF-8 bytes). -/
def utf8Bytes (c : Char) : List Nat :=
  let n := c.toNat
  if n < 0x80 then [n]
  else if n < 0x800 then [0xC0 + n / 0x40, 0x80 + n % 0x40]
  else if n < 0x10000 then
    [0xE0 + n / 0x1000, 0x80 + (n / 0x40) % 0x40, 0x80 + n % 0x40]
  else
    [0xF0 + n / 0x40000, 0x80 + (n / 0x1000) % 0x40, 0x80 + (n / 0x40) % 0x40,
     0x80 + n % 0x40]

/-- Treatment of one byte by `quote_plus`: space becomes `+`, unreserved
bytes stay themselves, everything else is `%XX`. -/
def quoteByte (n : Nat) : List Char :=
  if n = 32 then ['+']
  else if (65 ≤ n && n ≤ 90) || (97 ≤ n && n ≤ 122) || (48 ≤ n && n ≤ 57) ||
          n = 45 || n = 46 || n = 95 || n = 126 then [Char.ofNat n]
  else ['%', hexUpper (n / 16), hexUpper (n % 16)]

/-- Embeds `urllib.parse.quote_plus`. -/
def quote_plus (s : String) : String :=
  String.mk (((s.data.map utf8Bytes).flatten.map quoteByte).flatten)

/-- The Google Maps directions link of `build_directions_card`. -/
def gmapsUrl (a b : String) : String :=
  "https://www.google.com/maps/dir/?api=1&origin=" ++ quote_plus (pyStrip a) ++
  "&destination=" ++ quote_plus (pyStrip b)

/-- The Kakao Map (web) directions link of `build_directions_card`. -/
def kmapUrl (a b : String) : String :=
  "https://map.kakao.com/?sName=" ++ quote_plus (pyStrip a) ++
  "&eName=" ++ quote_plus (pyStrip b)

/-- The Apple Maps directions link of `build_directions_card`. -/
def amapUrl (a b : String) : String :=
  "https://maps.apple.com/?saddr=" ++ quote_plus (pyStrip a) ++
  "&daddr=" ++ quote_plus (pyStrip b)

/-- Embeds `build_directions_card` (`282b89b` variant, lines 239–268). -/
def build_directions_card (start_addr end_addr lang : String) : J :=
  if lang = "ko" then
    kakao_basic_card "길찾기"
      (start_addr ++ " → " ++ end_addr ++ "\n원하는 지도에서 열어보세요.")
      [webButton "Google 지도" (gmapsUrl start_addr end_addr),
       webButton "카카오맵(웹)" (kmapUrl start_addr end_addr),
       webButton "Apple 지도" (amapUrl start_addr end_addr)]
      (some "https://t1.daumcdn.net/localimg/localimages/07/mapapidoc/marker_red.png")
  else
    kakao_basic_card "Directions"
      (start_addr ++ " → " ++ end_addr ++ "\nOpen in your preferred map.")
      [webButton "Google Maps" (gmapsUrl start_addr end_addr),
       webButton "Kakao Map (Web)" (kmapUrl start_addr end_addr),
       webButton "Apple Maps" (amapUrl start_addr end_addr)]
      (some "https://t1.daumcdn.net/localimg/localimages/07/mapapidoc/marker_red.png")

/-- The `webLinkUrl` fields of the buttons of a basic-card payload. -/
def cardButtonUrls (card : J) : List String :=
  match template_outputs card with
  | [J.obj out] =>
    match jlookup "basicCard" out with
    | some (J.obj bc) =>
      match jlookup "buttons" bc with
      | some (J.arr bs) =>
        bs.foldr
          (fun b acc =>
            match b with
            | J.obj bf =>
              match jlookup "webLinkUrl" bf with
              | some (J.str u) => u :: acc
              | _ => acc
            | _ => acc)
          []
      | _ => []
    | _ => []
  | _ => []

/-!
Model of the two `re.search` calls of `parse_addr_to_addr`
(`282b89b` variant, lines 220–237).

Pattern 1 is `(.+?)\s*(?:to|->|→|⇒)\s*(.+)` with `IGNORECASE`, pattern 2
is `(.+?)\s*에서\s*(.+?)\s*까지`.  The model mirrors the backtracking
engine: `re.search` tries start positions left to right; `(.+?)` grows
from one character; `.` never matches a newline; because no alternative of
the separator (nor `에서`/`까지`) starts with a whitespace character, each
inner `\s*` can only stop at the end of the maximal whitespace run, except
for the `\s*` before `(.+)` / `(.+?)`, where the model backtracks from the
maximal run down to the empty one exactly as the engine does.
-/

/-- Length of the maximal whitespace run at the head of the list. -/
def wsRun : List Char → Nat
  | [] => 0
  | c :: t => if pySpace c then wsRun t + 1 else 0

/-- Separator alternation `(?:to|->|→|⇒)` under `IGNORECASE`; returns the
remainder after the separator. -/
def sep1 : List Char → Option (List Char)
  | a :: b :: rest =>
    if a.toLower = 't' && b.toLower = 'o' then some rest
    else if a = '-' && b = '>' then some rest
    else if a = '→' then some (b :: rest)
    else if a = '⇒' then some (b :: rest)
    else none
  | [a] => if a = '→' || a = '⇒' then some [] else none
  | [] => none

/-- Greedy `(.+)` starting after `k` characters of `cs`: `none` when there
is no character there or it is a newline, else all characters up to the
next newline. -/
def g2At (cs : List Char) (k : Nat) : Option (List Char) :=
  match cs.drop k with
  | [] => none
  | c :: rest =>
    if c = '\n' then none
    else some ((c :: rest).takeWhile (fun x => !(x = '\n')))

/-- Tail part `\s*(.+)` after the separator of pattern 1: try the maximal
whitespace run first, backtracking one character at a time. -/
def tail1go (cs : List Char) : Nat → Option (List Char)
  | 0 => g2At cs 0
  | Nat.succ k =>
    match g2At cs (k + 1) with
    | some g => some g
    | none => tail1go cs k

/-- The tail `\s*(.+)` of pattern 1. -/
def tail1 (cs : List Char) : Option (List Char) := tail1go cs (wsRun cs)

/-- Pattern-1 match attempt at a fixed start position: `acc` holds the
reversed group 1 so far; group 1 grows non-greedily. -/
def p1go (acc : List Char) : List Char → Option (List Char × List Char)
  | [] => none
  | c :: rest =>
    if c = '\n' then none
    else
      let acc' := c :: acc
      match sep1 (rest.drop (wsRun rest)) with
      | some after =>
        (match tail1 after with
         | some g2 => some (acc'.reverse, g2)
         | none => p1go acc' rest)
      | none => p1go acc' rest

/-- Search of pattern 1 (`re.search`): start positions tried left to right. -/
def p1Search : List Char → Option (List Char × List Char)
  | [] => none
  | c :: rest =>
    match p1go [] (c :: rest) with
    | some r => some r
    | none => p1Search rest

/-- Non-greedy `(.+?)\s*까지`: group 2 grows one character at a time,
succeeding as soon as `까지` follows the maximal whitespace run. -/
def g2Kkaji (acc : List Char) : List Char → Option (List Char)
  | [] => none
  | c :: rest =>
    if c = '\n' then none
    else
      let acc' := c :: acc
      if leadMatch ['까', '지'] (rest.drop (wsRun rest)) then some acc'.reverse
      else g2Kkaji acc' rest

/-- Tail part `\s*(.+?)\s*까지` after `에서`: the leading `\s*` is greedy, so the
maximal run is tried first, backtracking one character at a time. -/
def p2TailGo (cs : List Char) : Nat → Option (List Char)
  | 0 => g2Kkaji [] cs
  | Nat.succ k =>
    match g2Kkaji [] (cs.drop (k + 1)) with
    | some g => some g
    | none => p2TailGo cs k

/-- The tail `\s*(.+?)\s*까지` of pattern 2. -/
def p2Tail (cs : List Char) : Option (List Char) := p2TailGo cs (wsRun cs)

/-- Pattern-2 match attempt at a fixed start position (group 1 grows
non-greedily until `에서` follows the maximal whitespace run and the tail
matches). -/
def p2go (acc : List Char) : List Char → Option (List Char × List Char)
  | [] => none
  | c :: rest =>
    if c = '\n' then none
    else
      let acc' := c :: acc
      let afterWs := rest.drop (wsRun rest)
      if leadMatch ['에', '서'] afterWs then
        match p2Tail (afterWs.drop 2) with
        | some g2 => some (acc'.reverse, g2)
        | none => p2go acc' rest
      else p2go acc' rest

/-- Search of pattern 2 (`re.search`). -/
def p2Search : List Char → Option (List Char × List Char)
  | [] => none
  | c :: rest =>
    match p2go [] (c :: rest) with
    | some r => some r
    | none => p2Search rest

/-- Embeds `parse_addr_to_addr` (`282b89b` variant, lines 220–237): pattern 1
first; a match whose stripped groups are not both longer than two
characters falls through to pattern 2; a pattern-2 match with short
groups yields `(None, None)`. -/
def parse_addr_to_addr (utter : String) : Option String × Option String :=
  if utter = "" then (none, none)
  else
    let t := pyStrip utter
    let viaP2 : Option String × Option String :=
      match p2Search t.data with
      | some (g1, g2) =>
        let a := pyStrip (String.mk g1)
        let b := pyStrip (String.mk g2)
        if a.length > 2 && b.length > 2 then (some a, some b) else (none, none)
      | none => (none, none)
    match p1Search t.data with
    | some (g1, g2) =>
      let a := pyStrip (String.mk g1)
      let b := pyStrip (String.mk g2)
      if a.length > 2 && b.length > 2 then (some a, some b) else viaP2
    | none => viaP2

/-- The three fixed spots of `JEJU_SPOTS` (`282b89b` variant, lines
373–392), already rendered as carousel card objects (handler lines
495–502). -/
def jejuSpotCards : List J :=
  [J.obj [("title", J.str "성산일출봉"),
          ("description", J.str "제주의 상징적 일출 명소이자 유네스코 세계자연유산."),
          ("thumbnail", J.obj [("imageUrl", J.str "https://api.cdn.visitjeju.net/photomng/imgpath/202009/10/2020091009043672295d3c-9b69-4a9b-a0ec-2d24f8e2df4c.jpg")]),
          ("buttons", J.arr [webButton "지도 보기" "https://map.kakao.com/?q=성산일출봉"])],
   J.obj [("title", J.str "협재해변"),
          ("description", J.str "에메랄드빛 바다와 하얀 모래로 유명한 서제주 대표 해변."),
          ("thumbnail", J.obj [("imageUrl", J.str "https://api.cdn.visitjeju.net/photomng/imgpath/202103/19/20210319024335214f0668-5a4f-4d1e-b31a-7a773e9482b0.jpg")]),
          ("buttons", J.arr [webButton "지도 보기" "https://map.kakao.com/?q=협재해변"])],
   J.obj [("title", J.str "한라산 국립공원"),
          ("description", J.str "대한민국 최고봉. 계절마다 다른 풍경과 다양한 탐방로."),
          ("thumbnail", J.obj [("imageUrl", J.str "https://api.cdn.visitjeju.net/photomng/imgpath/201910/14/2019101409570831a2c4ff-fc02-48fa-b4c9-25ad33d93a69.jpg")]),
          ("buttons", J.arr [webButton "지도 보기" "https://map.kakao.com/?q=한라산"])]]

/-- The spot-carousel payload (handler lines 503–507): a `simpleText`
bubble followed by the carousel outputs. -/
def spotCarouselPayload : J :=
  J.obj [("version", J.str "2.0"),
         ("template", J.obj [("outputs",
            J.arr ([J.obj [("simpleText", J.obj [("text",
                      J.str "제주 인기 명소 TOP 3를 추천드려요 🌴")])]] ++
                   template_outputs (kakao_carousel jejuSpotCards)))])]

/-- Spot/recommendation keywords (handler line 494). -/
def spotKeys : List String :=
  ["명소", "추천", "관광지", "여행지", "볼만한 곳", "어디가 좋아"]

/-- The list `live_keywords` (handler lines 518–520). -/
def liveKeys : List String :=
  ["축제", "행사", "공연", "날씨", "운항", "운행", "실시간", "시간표",
   "공지", "폐장", "휴무", "입장료", "요금", "예약", "전시", "대회",
   "오늘", "이번주", "오늘밤",
   "festival", "event", "weather", "today", "tonight", "hours", "open", "close"]

/-- One mapped web-search result (`_naver_search` output rows). -/
structure SRow where
  title : String
  snippet : String
  link : String

/-- Embeds `pick_weather_links` (`282b89b` variant, lines 330–339): the first
link containing a KMA host and the first containing `search.naver.com`,
accumulated left to right.  Result is the `(kma, naver)` pair. -/
def pick_weather_links (results : List SRow) : String × String :=
  results.foldl
    (fun out r =>
      let out1 := if out.1 = "" &&
          (strContains r.link "weather.go.kr" || strContains r.link "kma.go.kr")
        then (r.link, out.2) else out
      if out1.2 = "" && strContains r.link "search.naver.com"
        then (out1.1, r.link) else out1)
    ("", "")

/-- Embeds `kakao_link_card` (`282b89b` variant, lines 341–349). -/
def kakao_link_card (title desc : String) (links : String × String) : J :=
  let buttons :=
    (if links.1 = "" then [] else [webButton "기상청 날씨" links.1]) ++
    (if links.2 = "" then [] else [webButton "네이버 날씨" links.2])
  let buttons := if buttons.isEmpty
    then [webButton "네이버 검색" "https://search.naver.com/search.naver?query=제주+날씨"]
    else buttons
  kakao_basic_card title desc buttons none

/-- Environment of the `282b89b` handler: the OpenAI-client flag,
`SEARCH_ENABLED`, the search gateway (outcome of `_naver_search` per
query) and the outcome of the LLM call.  In this merged snapshot the LLM
call site references the unbound names `MODEL` and `draft`, so at runtime
it always raises before any network call; `llm = none` models any raise
inside the `try` block. -/
structure V2Env where
  clientConfigured : Bool
  searchEnabled : Bool
  search : String → List SRow
  llm : Option String

/-- Extraction of the utterance, `282b89b` variant, lines 477–482 (no
`.strip()` in this variant; a parse failure leaves `utter = ""`). -/
def extract_utter_v2 (raw : Option KBody) : String :=
  match raw with
  | none => ""
  | some b => pyOrStr (b.userRequest.getD none) ""

/-- The weather-card payload of the `282b89b` handler (lines 529–542). -/
def weatherPayload (utter : String) (results : List SRow) : J :=
  let links := pick_weather_links results
  if guess_lang utter = "ko" then
    kakao_text_plus_card "아래 버튼을 눌러 확인하세요."
      (kakao_link_card "제주시 실시간 날씨"
        "공식 페이지에서 현재 기온·강수·바람 정보를 확인하세요." links)
  else
    kakao_text_plus_card "Tap a button to check live weather."
      (kakao_link_card "Jeju City Weather (Live)"
        "Open the official page for real-time temperature, precipitation and wind." links)

/-- The `/kakao/skill` handler of the `282b89b` variant (lines 475–558,
561–572 and 580–585): directions card, spot carousel, missing-key guard,
weather card, then the LLM call whose exception branch returns a fixed
apology bubble. -/
def kakao_skill_v2 (env : V2Env) (raw : Option KBody) : HResult :=
  let utter := extract_utter_v2 raw
  match parse_addr_to_addr utter with
  | (some a, some b) =>
    let lang := guess_lang utter
    let explain := if lang = "ko" then "아래 버튼으로 지도에서 길찾기를 확인하세요."
      else "Tap a button below to open directions."
    ⟨kakao_text_plus_card explain (build_directions_card a b lang), false⟩
  | _ =>
    if spotKeys.any (fun k => strContains utter k) then
      ⟨spotCarouselPayload, false⟩
    else if !env.clientConfigured then
      ⟨kakao_text "서버 오류: OPENAI_API_KEY가 설정되지 않았습니다.", false⟩
    else
      let lower := pyLowerStr utter
      let need_search := liveKeys.any (fun k => strContains utter k) ||
                         strContains lower "weather"
      let results := if env.searchEnabled && need_search then env.search utter else []
      if (need_search && strContains utter "날씨") || strContains lower "weather" then
        ⟨weatherPayload utter results, false⟩
      else
        match env.llm with
        | some content => ⟨kakao_text (pyStrip content), true⟩
        | none => ⟨kakao_text "죄송합니다. 잠시 후 다시 시도해 주세요.", true⟩

/-- Modelled from the spec: the synchronous reply of the Dialogue
Orchestrator — either the acknowledgement-only envelope ("a flag plus a
short waiting-text field", §6) or a final text bubble.  The callback-mode
dispatch this belongs to is present in other snapshots of the repository
but absent from `src/app/main.py`. -/
inductive SyncResponse where
  | ack : String → SyncResponse
  | final : String → SyncResponse
deriving DecidableEq

/-- Modelled from the spec: the background unit of work scheduled in
callback mode — it carries the callback address and the locally-built
draft (§4.5 step 6). -/
structure CallbackJob where
  callbackUrl : String
  draft : String
deriving DecidableEq

/-- Modelled from the spec: the LLM-or-draft resolution performed inside
the background unit of work — the refined text when the bounded LLM
attempt succeeds, the unrefined draft on failure or timeout. -/
def resolve_llm_or_draft (job : CallbackJob) (llmOutcome : Option String) : String :=
  match llmOutcome with
  | some refined => refined
  | none => job.draft

/-- Modelled from the spec: recommendation dispatch of the Dialogue
Orchestrator (§4.5 step 6), absent from `src/app/main.py`.  With callback
mode enabled and a callback address present, the synchronous response is
the acknowledgement envelope and a background job is scheduled; otherwise
the LLM-or-draft resolution happens synchronously and no job is
scheduled. -/
def dispatch_recommendation (callbackEnabled : Bool) (callbackUrl : Option String)
    (draft : String) (syncLlm : Option String) : SyncResponse × Option CallbackJob :=
  match callbackEnabled, callbackUrl with
  | true, some url => (SyncResponse.ack "답변을 준비 중입니다.", some ⟨url, draft⟩)
  | true, none =>
    (SyncResponse.final (match syncLlm with | some t => t | none => draft), none)
  | false, _ =>
    (SyncResponse.final (match syncLlm with | some t => t | none => draft), none)

/-- Boolean list membership agrees with propositional membership. -/
theorem memStr_iff (k : String) (l : List String) : memStr k l = true ↔ k ∈ l := by
  induction l with
  | nil => simp [memStr]
  | cons a t ih =>
    simp only [memStr, Bool.or_eq_true, decide_eq_true_eq, ih, List.mem_cons]
    exact or_congr eq_comm Iff.rfl

/-- A filter shrinks the list exactly when some element fails the
predicate. -/
theorem length_filter_lt_iff {α : Type} (p : α → Bool) (l : List α) :
    (l.filter p).length < l.length ↔ ∃ x ∈ l, p x = false := by
  induction l with
  | nil => simp
  | cons a t ih =>
    rcases h : p a with _ | _
    · rw [List.filter_cons_of_neg (by simp [h])]
      refine iff_of_true ?_ ⟨a, List.mem_cons_self a t, h⟩
      exact Nat.lt_succ_of_le (List.length_filter_le p t)
    · rw [List.filter_cons_of_pos (by simp [h])]
      simp only [List.length_cons, Nat.succ_lt_succ_iff, ih]
      constructor
      · rintro ⟨x, hx, hpx⟩
        exact ⟨x, List.mem_cons_of_mem a hx, hpx⟩
      · rintro ⟨x, hx, hpx⟩
        rcases List.mem_cons.mp hx with rfl | hx'
        · rw [h] at hpx; cases hpx
        · exact ⟨x, hx', hpx⟩

/-- Characterization of the `blocked` set built by `filter_blacklist`. -/
theorem mem_blockedKeys (bl : List Row) (k : String) :
    k ∈ blockedKeys bl ↔ ∃ r ∈ bl, sevLow r = "high" ∧ rowKey r ≠ "" ∧ rowKey r = k := by
  have aux : ∀ (l : List Row) (acc : List String),
      k ∈ l.foldl blockedStep acc ↔
        k ∈ acc ∨ ∃ r ∈ l, sevLow r = "high" ∧ rowKey r ≠ "" ∧ rowKey r = k := by
    intro l
    induction l with
    | nil => intro acc; simp
    | cons r t ih =>
      intro acc
      rw [List.foldl_cons, ih (blockedStep acc r)]
      by_cases h1 : sevLow r = "high"
      · by_cases h2 : rowKey r = ""
        · rw [blockedStep, if_pos h1, if_pos h2]
          constructor
          · rintro (hacc | ⟨x, hx, hs⟩)
            · exact Or.inl hacc
            · exact Or.inr ⟨x, List.mem_cons_of_mem r hx, hs⟩
          · rintro (hacc | ⟨x, hx, hs, hk, he⟩)
            · exact Or.inl hacc
            · rcases List.mem_cons.mp hx with rfl | hx'
              · exact absurd h2 hk
              · exact Or.inr ⟨x, hx', hs, hk, he⟩
        · rw [blockedStep, if_pos h1, if_neg h2]
          constructor
          · rintro (hacc | ⟨x, hx, hs⟩)
            · rcases List.mem_cons.mp hacc with he | hacc'
              · exact Or.inr ⟨r, List.mem_cons_self r t, h1, h2, he.symm⟩
              · exact Or.inl hacc'
            · exact Or.inr ⟨x, List.mem_cons_of_mem r hx, hs⟩
          · rintro (hacc | ⟨x, hx, hs, hk, he⟩)
            · exact Or.inl (List.mem_cons_of_mem _ hacc)
            · rcases List.mem_cons.mp hx with rfl | hx'
              · exact Or.inl (he ▸ List.mem_cons_self _ _)
              · exact Or.inr ⟨x, hx', hs, hk, he⟩
      · rw [blockedStep, if_neg h1]
        constructor
        · rintro (hacc | ⟨x, hx, hs⟩)
          · exact Or.inl hacc
          · exact Or.inr ⟨x, List.mem_cons_of_mem r hx, hs⟩
        · rintro (hacc | ⟨x, hx, hs, hk, he⟩)
          · exact Or.inl hacc
          · rcases List.mem_cons.mp hx with rfl | hx'
            · exact absurd hs h1
            · exact Or.inr ⟨x, hx', hs, hk, he⟩
  rw [blockedKeys, aux bl []]
  simp

/-- C1: for every candidate list and congestion rule set,
`apply_congestion_rules` returns a non-empty list whenever the input is
non-empty, and the notice flag is true exactly when some candidate's area
is in a high-level congestion area (computed before the revert). -/
theorem congestion_never_empties (pois rules : List Row) (h : pois ≠ []) :
    (apply_congestion_rules pois rules).1 ≠ [] ∧
      ((apply_congestion_rules pois rules).2 = true ↔
        ∃ p ∈ pois, memStr (areaKey p) (highAreas rules) = true) := by
  unfold apply_congestion_rules
  constructor
  · by_cases he : (pois.filter (fun p => !memStr (areaKey p) (highAreas rules))).isEmpty
    · simpa [he] using h
    · simpa [he] using (by simpa [List.isEmpty_iff] using he)
  · simp only [decide_eq_true_eq]
    rw [length_filter_lt_iff]
    constructor
    · rintro ⟨x, hx, hpx⟩
      exact ⟨x, hx, by simpa using hpx⟩
    · rintro ⟨x, hx, hpx⟩
      exact ⟨x, hx, by simpa using hpx⟩

/-- C1 witness: a concrete one-candidate list in a high-congestion area —
the filter would empty the list, the revert keeps the candidate, and the
notice flag is raised. -/
theorem congestion_never_empties_witness :
    ([⟨some "a", none, none, some "애월", none, none⟩] : List Row) ≠ [] ∧
    ((apply_congestion_rules [⟨some "a", none, none, some "애월", none, none⟩]
        [⟨none, none, none, some "애월", none, some "high"⟩]).1 ≠ [] ∧
      ((apply_congestion_rules [⟨some "a", none, none, some "애월", none, none⟩]
          [⟨none, none, none, some "애월", none, some "high"⟩]).2 = true ↔
        ∃ p ∈ ([⟨some "a", none, none, some "애월", none, none⟩] : List Row),
          memStr (areaKey p)
            (highAreas [⟨none, none, none, some "애월", none, some "high"⟩]) = true)) :=
  ⟨by decide,
   congestion_never_empties
     [⟨some "a", none, none, some "애월", none, none⟩]
     [⟨none, none, none, some "애월", none, some "high"⟩] (by decide)⟩

/-- C4 counterexample: a candidate whose identifier matches a high-severity
blacklist entry up to letter case is kept by the source's
`filter_blacklist` (the key comparison is case-sensitive), while the
claim's case-insensitive filter `filter_blacklist_ci` removes it. -/
theorem blacklist_case_counterexample :
    filter_blacklist
        [⟨some "HallimPark", none, none, none, none, none⟩]
        [⟨some "hallimpark", none, none, none, some "HIGH", none⟩]
      = [⟨some "HallimPark", none, none, none, none, none⟩] ∧
    filter_blacklist_ci
        [⟨some "HallimPark", none, none, none, none, none⟩]
        [⟨some "hallimpark", none, none, none, some "HIGH", none⟩]
      = [] ∧
    pyLowerStr (rowKey (⟨some "HallimPark", none, none, none, none, none⟩ : Row)) =
      pyLowerStr (rowKey (⟨some "hallimpark", none, none, none, some "HIGH", none⟩ : Row)) ∧
    sevLow (⟨some "hallimpark", none, none, none, some "HIGH", none⟩ : Row) = "high" :=
  ⟨rfl, rfl, rfl, rfl⟩

/-- C4 (amended): `filter_blacklist` removes exactly the candidates whose
non-empty trimmed identifier-or-name equals — case-sensitively — the
trimmed identifier-or-name of some blacklist row whose severity compares
case-insensitively equal to `"high"`. -/
theorem blacklist_filter_exact (pois bl : List Row) (p : Row) :
    p ∈ filter_blacklist pois bl ↔
      p ∈ pois ∧
        ¬(rowKey p ≠ "" ∧
          ∃ r ∈ bl, sevLow r = "high" ∧ rowKey r ≠ "" ∧ rowKey r = rowKey p) := by
  unfold filter_blacklist
  rw [List.mem_filter]
  refine and_congr_right fun _ => ?_
  rw [show (∃ r ∈ bl, sevLow r = "high" ∧ rowKey r ≠ "" ∧ rowKey r = rowKey p) ↔
        rowKey p ∈ blockedKeys bl from (mem_blockedKeys bl (rowKey p)).symm]
  constructor
  · intro hb hc
    rcases hc with ⟨hne, hmem⟩
    have := (memStr_iff (rowKey p) (blockedKeys bl)).mpr hmem
    simp [this, bne_iff_ne, hne] at hb
  · intro hnc
    by_cases hne : rowKey p = ""
    · simp [hne, bne_iff_ne]
    · have hmem : rowKey p ∉ blockedKeys bl := fun hm => hnc ⟨hne, hm⟩
      have : memStr (rowKey p) (blockedKeys bl) = false := by
        rcases h : memStr (rowKey p) (blockedKeys bl) with _ | _
        · rfl
        · exact absurd ((memStr_iff _ _).mp h) hmem
      simp [this]

/-- C2: any utterance caught by the internal-probe guard makes the HEAD
handler return exactly the fixed refusal bubble, with no LLM call. -/
theorem probe_guard_refusal (env : HeadEnv) (raw : Option KBody)
    (h : is_internal_probe (extract_utter_head raw) = true) :
    kakao_skill_head env raw =
      ⟨kakao_text "비밀이에요 🤫 공식적으로 공개되지 않은 정보입니다.", false⟩ := by
  unfold kakao_skill_head
  simp [h]

/-- C2 witness: the probe keyword `지침` inside a longer utterance. -/
theorem probe_guard_refusal_witness :
    is_internal_probe (extract_utter_head (some ⟨some (some "지침 알려줘")⟩)) = true ∧
    kakao_skill_head ⟨true, fun _ => Except.error "missing", none⟩
        (some ⟨some (some "지침 알려줘")⟩) =
      ⟨kakao_text "비밀이에요 🤫 공식적으로 공개되지 않은 정보입니다.", false⟩ :=
  ⟨rfl, probe_guard_refusal ⟨true, fun _ => Except.error "missing", none⟩
          (some ⟨some (some "지침 알려줘")⟩) rfl⟩

/-- C10: a non-probe request reaching the dispatch path with no OpenAI
client configured gets the fixed configuration-error bubble and no LLM
call. -/
theorem missing_key_guard (env : HeadEnv) (raw : Option KBody)
    (hp : is_internal_probe (extract_utter_head raw) = false)
    (hc : env.clientConfigured = false) :
    kakao_skill_head env raw = ⟨kakao_text "서버 설정 오류: OPENAI_API_KEY 필요", false⟩ := by
  unfold kakao_skill_head
  simp [hp, hc]

/-- C10 witness: empty utterance, no client configured. -/
theorem missing_key_guard_witness :
    is_internal_probe (extract_utter_head none) = false ∧
    kakao_skill_head ⟨false, fun _ => Except.error "missing", none⟩ none =
      ⟨kakao_text "서버 설정 오류: OPENAI_API_KEY 필요", false⟩ :=
  ⟨rfl, missing_key_guard ⟨false, fun _ => Except.error "missing", none⟩ none rfl rfl⟩

/-- C5: past the guards, the HEAD handler returns the locally-built draft
when the LLM call raises (or times out), the stripped refined text when it
succeeds, and in either case a `kakao_text`-shaped bubble — no exception
escapes. -/
theorem llm_failure_returns_draft (env : HeadEnv) (raw : Option KBody)
    (hp : is_internal_probe (extract_utter_head raw) = false)
    (hc : env.clientConfigured = true) :
    (env.llm = none →
      kakao_skill_head env raw = ⟨kakao_text (head_draft env.fs), true⟩) ∧
    (∀ s, env.llm = some s →
      kakao_skill_head env raw = ⟨kakao_text (pyStrip s), true⟩) ∧
    (∃ t, (kakao_skill_head env raw).payload = kakao_text t) := by
  unfold kakao_skill_head
  rw [if_neg (by simp [hp]), if_neg (by simp [hc])]
  refine ⟨fun h => by rw [h], fun s h => by rw [h], ?_⟩
  cases env.llm with
  | none => exact ⟨head_draft env.fs, rfl⟩
  | some s => exact ⟨pyStrip s, rfl⟩

/-- C5 witness: empty utterance, client configured, LLM raising — the
draft comes back. -/
theorem llm_failure_returns_draft_witness :
    is_internal_probe (extract_utter_head none) = false ∧
    kakao_skill_head ⟨true, fun _ => Except.error "down", none⟩ none =
      ⟨kakao_text (head_draft (fun _ => Except.error "down")), true⟩ :=
  ⟨rfl,
   (llm_failure_returns_draft ⟨true, fun _ => Except.error "down", none⟩ none rfl rfl).1 rfl⟩

/-- C6: a Knowledge-Store read failure degrades to an empty record list,
and an empty candidate list puts the static half-day placeholder line into
the rendered draft — no error is surfaced. -/
theorem knowledge_store_degrades (fs : String → Except String (List Row))
    (filename msg : String) (hf : fs filename = Except.error msg) :
    read_csv_dicts fs filename = [] ∧
    ∀ notice : Bool,
      strContains (build_draft [] notice) "- 반나절 2~3곳 위주로 이동 동선 최소화" = true := by
  constructor
  · unfold read_csv_dicts
    rw [hf]
  · intro notice
    cases notice
    · rfl
    · rfl

/-- C6 witness: a file system failing every read; the draft built from no
candidates carries the placeholder line. -/
theorem knowledge_store_degrades_witness :
    read_csv_dicts (fun _ => Except.error "missing") "jeju_hotel_halftime_courses.csv" = [] ∧
    strContains (build_draft [] false) "- 반나절 2~3곳 위주로 이동 동선 최소화" = true :=
  ⟨(knowledge_store_degrades (fun _ => Except.error "missing")
      "jeju_hotel_halftime_courses.csv" "missing" rfl).1,
   (knowledge_store_degrades (fun _ => Except.error "missing")
      "jeju_hotel_halftime_courses.csv" "missing" rfl).2 false⟩

/-- C7: `pick_courses` returns at most three records, from the primary
course file when it yields rows, from the secondary sample file only when
the primary yields none. -/
theorem pick_courses_bounded (fs : String → Except String (List Row)) :
    (pick_courses fs).length ≤ 3 ∧
    (read_csv_dicts fs "jeju_hotel_halftime_courses.csv" ≠ [] →
      pick_courses fs = (read_csv_dicts fs "jeju_hotel_halftime_courses.csv").take 3) ∧
    (read_csv_dicts fs "jeju_hotel_halftime_courses.csv" = [] →
      pick_courses fs = (read_csv_dicts fs "jeju_sample_halfday_courses.csv").take 3) := by
  refine ⟨?_, ?_, ?_⟩
  · by_cases h : (read_csv_dicts fs "jeju_hotel_halftime_courses.csv").isEmpty <;>
      simp [pick_courses, h, List.length_take]
  · intro h
    have hne : (read_csv_dicts fs "jeju_hotel_halftime_courses.csv").isEmpty = false := by
      simpa [List.isEmpty_iff] using h
    simp [pick_courses, hne]
  · intro h
    simp [pick_courses, h]

/-- C7 witness: a primary file with one row — the result is the primary
list truncated to three. -/
theorem pick_courses_bounded_witness :
    (pick_courses (fun n => if n = "jeju_hotel_halftime_courses.csv"
        then Except.ok [⟨some "a", none, none, none, none, none⟩] else Except.ok [])).length ≤ 3 ∧
    pick_courses (fun n => if n = "jeju_hotel_halftime_courses.csv"
        then Except.ok [⟨some "a", none, none, none, none, none⟩] else Except.ok []) =
      (read_csv_dicts (fun n => if n = "jeju_hotel_halftime_courses.csv"
        then Except.ok [⟨some "a", none, none, none, none, none⟩] else Except.ok [])
        "jeju_hotel_halftime_courses.csv").take 3 :=
  ⟨(pick_courses_bounded _).1,
   (pick_courses_bounded (fun n => if n = "jeju_hotel_halftime_courses.csv"
      then Except.ok [⟨some "a", none, none, none, none, none⟩] else Except.ok [])).2.1
     (by decide)⟩

/-- C8: a missing or malformed body behaves exactly like the empty object,
and a missing `userRequest` or `utterance` field degrades to the empty
utterance — parsing never yields an error response. -/
theorem inbound_parse_tolerant (env : HeadEnv) (raw : Option KBody)
    (h : raw = none ∨ raw = some ⟨none⟩ ∨ raw = some ⟨some none⟩) :
    extract_utter_head raw = "" ∧
    kakao_skill_head env raw = kakao_skill_head env (some ⟨none⟩) := by
  rcases h with rfl | rfl | rfl <;> exact ⟨rfl, rfl⟩

/-- C8 witness: the malformed-body case. -/
theorem inbound_parse_tolerant_witness :
    extract_utter_head none = "" ∧
    kakao_skill_head ⟨true, fun _ => Except.error "m", none⟩ none =
      kakao_skill_head ⟨true, fun _ => Except.error "m", none⟩ (some ⟨none⟩) :=
  inbound_parse_tolerant ⟨true, fun _ => Except.error "m", none⟩ none (Or.inl rfl)

/-- C9: with callback mode enabled and a callback address present the
synchronous response is the acknowledgement envelope, independent of the
LLM outcome, a background job carrying the draft is scheduled, and the
LLM-or-draft resolution is the background job's. -/
theorem callback_mode_ack_only (url draft s : String) (a b : Option String) :
    dispatch_recommendation true (some url) draft a =
      (SyncResponse.ack "답변을 준비 중입니다.", some ⟨url, draft⟩) ∧
    dispatch_recommendation true (some url) draft a =
      dispatch_recommendation true (some url) draft b ∧
    resolve_llm_or_draft ⟨url, draft⟩ (some s) = s ∧
    resolve_llm_or_draft ⟨url, draft⟩ none = draft :=
  ⟨rfl, rfl, rfl, rfl⟩

/-- The button URLs of a three-button basic card, read back in order. -/
theorem cardButtonUrls_basic (t d l1 u1 l2 u2 l3 u3 : String) (img : Option String) :
    cardButtonUrls (kakao_basic_card t d
      [webButton l1 u1, webButton l2 u2, webButton l3 u3] img) = [u1, u2, u3] := rfl

/-- C3 counterexample: on the exact utterance `서울에서 부산까지` the parsed
addresses `서울` and `부산` are only two characters long, so
`parse_addr_to_addr` rejects them and the `282b89b` handler falls through
to the LLM dispatch (whose exception branch answers with the fixed apology
bubble) instead of returning the map card. -/
theorem addr_scenario_counterexample :
    parse_addr_to_addr "서울에서 부산까지" = (none, none) ∧
    kakao_skill_v2 ⟨true, true, fun _ => [], none⟩ (some ⟨some (some "서울에서 부산까지")⟩) =
      ⟨kakao_text "죄송합니다. 잠시 후 다시 시도해 주세요.", true⟩ :=
  ⟨rfl, rfl⟩

/-- C3 (amended): whenever `parse_addr_to_addr` succeeds — two address-like
substrings, each longer than two characters, joined by a supported
separator — the `282b89b` handler returns the text-plus-card response whose
card carries exactly the three map links built from the two parsed
addresses, without reaching the LLM call; but the scenario utterance
`서울에서 부산까지` itself does not qualify (each address has exactly two
characters). -/
theorem addr_card_on_parse (env : V2Env) (raw : Option KBody) (a b : String)
    (h : parse_addr_to_addr (extract_utter_v2 raw) = (some a, some b)) :
    kakao_skill_v2 env raw =
      ⟨kakao_text_plus_card
        (if guess_lang (extract_utter_v2 raw) = "ko" then "아래 버튼으로 지도에서 길찾기를 확인하세요."
         else "Tap a button below to open directions.")
        (build_directions_card a b (guess_lang (extract_utter_v2 raw))), false⟩ ∧
    cardButtonUrls (build_directions_card a b (guess_lang (extract_utter_v2 raw))) =
      [gmapsUrl a b, kmapUrl a b, amapUrl a b] := by
  constructor
  · unfold kakao_skill_v2
    simp only [h]
  · by_cases hl : guess_lang (extract_utter_v2 raw) = "ko" <;>
      simp [build_directions_card, hl, cardButtonUrls_basic]

/-- C3 witness: `Seoul to Busan` parses into two five-character addresses
and the handler answers with the directions card and its three links. -/
theorem addr_card_on_parse_witness :
    parse_addr_to_addr (extract_utter_v2 (some ⟨some (some "Seoul to Busan")⟩)) =
      (some "Seoul", some "Busan") ∧
    kakao_skill_v2 ⟨true, true, fun _ => [], none⟩ (some ⟨some (some "Seoul to Busan")⟩) =
      ⟨kakao_text_plus_card "Tap a button below to open directions."
        (build_directions_card "Seoul" "Busan" "en"), false⟩ ∧
    cardButtonUrls (build_directions_card "Seoul" "Busan" "en") =
      [gmapsUrl "Seoul" "Busan", kmapUrl "Seoul" "Busan", amapUrl "Seoul" "Busan"] := by
  have h : parse_addr_to_addr (extract_utter_v2 (some ⟨some (some "Seoul to Busan")⟩)) =
      (some "Seoul", some "Busan") := rfl
  have hmain := addr_card_on_parse ⟨true, true, fun _ => [], none⟩
    (some ⟨some (some "Seoul to Busan")⟩) "Seoul" "Busan" h
  exact ⟨h, hmain.1, hmain.2⟩
